import Mathlib

/-!
Shallow embedding of the Authentication & Session Lifecycle subsystem of the
Script-Assist-NestJS repository (src/modules/auth/auth.service.ts, here
`AuthService`), together with the refresh-token entity and the TTL cache
(cache-manager) it uses.

Modelling conventions:
* Time is `Nat`, milliseconds since epoch (`Date.now()`); JWT `exp` claims are
  `Nat` seconds, as in the code (`Math.floor(Date.now() / 1000)`).
* A signed JWT is modelled as a `Tok` value carrying exactly the claims the
  code signs (payload fields, `iat`, `exp`); two tokens are equal iff the
  signed strings would be byte-identical (same payload, same issue time, same
  expiry).
* The cache-manager store is an association list of (key, value, expiry time);
  `get` returns the stored value only while `now < expiry`.  Key strings
  `attempts:<e>`, `lockout:<e>`, `blacklist:<tok>`, `user:<id>` live in
  disjoint namespaces and are modelled by the `CKey` inductive.
* `bcrypt.compare(plain, hash)` is modelled as equality of `hash` with a
  deterministic `bcryptHash plain`; stored user hashes are such values.
* Database rows of `refresh_tokens` are `RefreshRecord`s; `uuidv4()` primary
  keys are modelled by a `nextId` counter in the state.  TypeORM transactions
  (queryRunner.startTransaction / commit / rollback) are modelled by buffering
  the row writes and applying them only on the success path: on any thrown
  error the `catch` block rolls the transaction back, so the row state is
  returned unchanged.  Cache writes are not transactional and persist.
-/

/-- A user row, as used by the auth service (`password` is the stored bcrypt
hash). -/
structure User where
  id : String
  email : String
  name : String
  role : String
  password : String
  tokenVersion : Nat
  deriving DecidableEq, Repr

/-- A signed JWT as minted by `generateTokenPair`: either an access token with
payload `{sub, email, role, tokenVersion}` or a refresh token with payload
`{sub, type: "refresh"}`.  `iat` is the signing instant in ms, `exp` the expiry
claim in seconds. -/
inductive Tok where
  | access (sub email role : String) (tokenVersion : Nat) (iat exp : Nat)
  | refresh (sub : String) (iat exp : Nat)
  deriving DecidableEq, Repr

/-- The `exp` claim read back by `jwtService.decode`. -/
def Tok.exp : Tok → Nat
  | .access _ _ _ _ _ e => e
  | .refresh _ _ e => e

/-- A row of the `refresh_tokens` table (entity `RefreshToken`). -/
structure RefreshRecord where
  id : Nat
  token : Tok
  userId : String
  expiresAt : Nat
  isActive : Bool
  createdAt : Nat
  deriving DecidableEq, Repr

/-- Cache key namespaces used by the service: `attempts:<email>`,
`lockout:<email>`, `blacklist:<token>`, `user:<userId>`.  The string prefixes
are distinct, so the namespaces are disjoint. -/
inductive CKey where
  | attempts (email : String)
  | lockout (email : String)
  | blacklist (token : Tok)
  | userKey (userId : String)
  deriving DecidableEq, Repr

/-- A cache-manager value: the service stores numbers (attempt counters),
booleans (lockout and blacklist markers) and user objects. -/
inductive CacheVal where
  | nat (n : Nat)
  | bool (b : Bool)
  | user (u : User)
  deriving DecidableEq, Repr

/-- JavaScript truthiness of a cached value, as used by `if (lockoutData)` and
`if (isBlacklisted)`. -/
def CacheVal.truthy : CacheVal → Bool
  | .nat n => n ≠ 0
  | .bool b => b
  | .user _ => true

/-- The TTL cache: entries (key, value, absolute expiry in ms). -/
abbrev Cache := List (CKey × CacheVal × Nat)

/-- `cacheManager.get(k)` at instant `now`: the stored value while unexpired,
otherwise `undefined`. -/
def cacheGet (now : Nat) (k : CKey) : Cache → Option CacheVal
  | [] => none
  | (k', v, exp) :: rest =>
      if k' = k then (if now < exp then some v else none) else cacheGet now k rest

/-- `cacheManager.set(k, v, ttl)` at instant `now`: replaces any entry for `k`
with one expiring at `now + ttl`. -/
def cacheSet (now : Nat) (k : CKey) (v : CacheVal) (ttl : Nat) (c : Cache) : Cache :=
  (k, v, now + ttl) :: c.filter (fun e => ¬ e.1 = k)

/-- `cacheManager.del(k)`. -/
def cacheDel (k : CKey) (c : Cache) : Cache :=
  c.filter (fun e => ¬ e.1 = k)

/-- The whole mutable state the auth service touches: the `refresh_tokens`
table, the shared TTL cache, the users table (read through `UsersService`),
and the uuid source for new row ids. -/
structure St where
  db : List RefreshRecord
  cache : Cache
  users : List User
  nextId : Nat
  deriving DecidableEq, Repr

/-- Errors thrown by the service: `UnauthorizedException(msg)`,
`BadRequestException(msg)`, or a non-HTTP internal fault (e.g. a TypeError on
a missing relation). -/
inductive AuthError where
  | unauthorized (msg : String)
  | badRequest (msg : String)
  | internal
  deriving DecidableEq, Repr

instance {α β : Type} [DecidableEq α] [DecidableEq β] : DecidableEq (Except α β) := fun a b => by
  cases a <;> cases b
  · rename_i x y
    exact decidable_of_iff (x = y) (by simp)
  · exact isFalse (by simp)
  · exact isFalse (by simp)
  · rename_i x y
    exact decidable_of_iff (x = y) (by simp)

/-- The `user` summary returned in `AuthResponseDto`. -/
structure UserSummary where
  id : String
  email : String
  name : String
  role : String
  deriving DecidableEq, Repr

/-- `AuthResponseDto`: token pair plus minimal user summary. -/
structure AuthResponseDto where
  accessToken : Tok
  refreshToken : Tok
  user : UserSummary
  deriving DecidableEq, Repr

/-- `MAX_LOGIN_ATTEMPTS = 5`. -/
def MAX_LOGIN_ATTEMPTS : Nat := 5

/-- `LOCKOUT_DURATION = 15 * 60 * 1000` ms. -/
def LOCKOUT_DURATION : Nat := 15 * 60 * 1000

/-- The configuration the service reads through `ConfigService`: the two JWT
expirations (in seconds; defaults '15m' and '7d').  The signing secrets do not
influence any modelled observation and are omitted. -/
structure Config where
  accessExpirationS : Nat
  refreshExpirationS : Nat
  deriving DecidableEq, Repr

/-- `bcrypt.hash`: deterministic model; `bcrypt.compare(p, h)` succeeds iff
`h = bcryptHash p`. -/
def bcryptHash (plain : String) : String :=
  "bcrypt$" ++ plain

/-- `verifyPassword(plainPassword, hashedPassword) = bcrypt.compare(...)`. -/
def verifyPassword (plainPassword hashedPassword : String) : Bool :=
  hashedPassword = bcryptHash plainPassword

/-- `simulatePasswordCheck()`: compares a dummy password against a fixed dummy
hash; no effect on any modelled state, result discarded. -/
def simulatePasswordCheck : Bool :=
  verifyPassword "dummy" "$2b$10$dummy.hash.to.prevent.timing.attacks"

/-- `checkUserLockout(email)`: throws `UnauthorizedException` iff the
`lockout:<email>` cache entry is present (and truthy). -/
def checkUserLockout (now : Nat) (email : String) (c : Cache) : Except AuthError Unit :=
  match cacheGet now (.lockout email) c with
  | some v =>
      if v.truthy then
        .error (.unauthorized "Account temporarily locked due to too many failed attempts")
      else .ok ()
  | none => .ok ()

/-- `recordFailedAttempt(email)`: increments the `attempts:<email>` counter;
at `MAX_LOGIN_ATTEMPTS` sets `lockout:<email>` for `LOCKOUT_DURATION` and
deletes the counter, otherwise stores the new count with `LOCKOUT_DURATION`
TTL. -/
def recordFailedAttempt (now : Nat) (email : String) (c : Cache) : Cache :=
  let attempts := match cacheGet now (.attempts email) c with
    | some (.nat n) => n
    | _ => 0
  let newAttempts := attempts + 1
  if MAX_LOGIN_ATTEMPTS ≤ newAttempts then
    cacheDel (.attempts email) (cacheSet now (.lockout email) (.bool true) LOCKOUT_DURATION c)
  else
    cacheSet now (.attempts email) (.nat newAttempts) LOCKOUT_DURATION c

/-- `clearFailedAttempts(email)`: deletes the `attempts:<email>` counter. -/
def clearFailedAttempts (email : String) (c : Cache) : Cache :=
  cacheDel (.attempts email) c

/-- `generateTokenPair(user)`: signs the access token with payload
`{sub, email, role, tokenVersion}` and expiry `JWT_ACCESS_EXPIRATION`, and the
refresh token with payload `{sub, type: "refresh"}` and expiry
`JWT_REFRESH_EXPIRATION`; `exp = floor(now / 1000) + expiresIn`. -/
def generateTokenPair (cfg : Config) (now : Nat) (user : User) : Tok × Tok :=
  (Tok.access user.id user.email user.role user.tokenVersion now
      (now / 1000 + cfg.accessExpirationS),
   Tok.refresh user.id now (now / 1000 + cfg.refreshExpirationS))

/-- `storeRefreshToken(userId, token, queryRunner)`: saves a new row with a
fresh uuid, `isActive = true` and `expiresAt = Date.now() + 7*24*60*60*1000`
(hard-coded 7 days).  Returns the table with the row prepended and the next
uuid counter. -/
def storeRefreshToken (now : Nat) (userId : String) (token : Tok)
    (db : List RefreshRecord) (nextId : Nat) : List RefreshRecord × Nat :=
  ({ id := nextId, token := token, userId := userId,
     expiresAt := now + 7 * 24 * 60 * 60 * 1000,
     isActive := true, createdAt := now } :: db, nextId + 1)

/-- `queryRunner.manager.save(record)` on an existing row: update by primary
key. -/
def saveRec (r : RefreshRecord) (db : List RefreshRecord) : List RefreshRecord :=
  db.map (fun x => if x.id = r.id then r else x)

/-- The lookup of `refreshTokens`: `findOne(RefreshToken, { where: { token,
isActive: true } })`. -/
def findActiveByToken (t : Tok) (db : List RefreshRecord) : Option RefreshRecord :=
  db.find? (fun r => decide (r.token = t) && r.isActive)

/-- `usersService.findByEmail(email)`. -/
def findByEmail (email : String) (users : List User) : Option User :=
  users.find? (fun u => decide (u.email = email))

/-- The relation load `relations: ['user']` of `refreshTokens`. -/
def findUserById (userId : String) (users : List User) : Option User :=
  users.find? (fun u => decide (u.id = userId))

/-- The user summary built into every `AuthResponseDto`. -/
def summaryOf (u : User) : UserSummary :=
  { id := u.id, email := u.email, name := u.name, role := u.role }

/-- `login(loginDto)`.  Sequence as in the code: lockout check; transaction;
`findByEmail`; on absence `simulatePasswordCheck` then `recordFailedAttempt`
then throw `UnauthorizedException('Invalid credentials')` (rolled back, but no
row was written); on password mismatch `recordFailedAttempt` and the identical
throw; on match `clearFailedAttempts`, `generateTokenPair`,
`storeRefreshToken`, commit.  Cache writes are outside the transaction and
always persist; row writes persist only on commit. -/
def login (cfg : Config) (now : Nat) (email password : String) (s : St) :
    Except AuthError AuthResponseDto × St :=
  match checkUserLockout now email s.cache with
  | .error e => (.error e, s)
  | .ok _ =>
    match findByEmail email s.users with
    | none =>
        let _ := simulatePasswordCheck
        (.error (.unauthorized "Invalid credentials"),
         { s with cache := recordFailedAttempt now email s.cache })
    | some user =>
        if verifyPassword password user.password then
          let cache1 := clearFailedAttempts email s.cache
          let tokens := generateTokenPair cfg now user
          let (db1, nid) := storeRefreshToken now user.id tokens.2 s.db s.nextId
          (.ok { accessToken := tokens.1, refreshToken := tokens.2, user := summaryOf user },
           { s with cache := cache1, db := db1, nextId := nid })
        else
          (.error (.unauthorized "Invalid credentials"),
           { s with cache := recordFailedAttempt now email s.cache })

/-- The validation phase of `refreshTokens`, exactly the reads the transaction
performs before its first write: `findOne({token, isActive: true},
relations: ['user'])`, the `expiresAt < new Date()` check, and the
`blacklist:<token>` cache read.  A missing `user` relation would make
`generateTokenPair(storedToken.user)` throw a TypeError (caught and rolled
back), modelled as `AuthError.internal`. -/
def refreshValidate (now : Nat) (t : Tok) (db : List RefreshRecord) (cache : Cache)
    (users : List User) : Except AuthError (RefreshRecord × User) :=
  match findActiveByToken t db with
  | none => .error (.unauthorized "Invalid refresh token")
  | some r =>
      if r.expiresAt < now then .error (.unauthorized "Invalid refresh token")
      else
        match cacheGet now (.blacklist t) cache with
        | some v =>
            if v.truthy then .error (.unauthorized "Token has been revoked")
            else
              match findUserById r.userId users with
              | none => .error .internal
              | some u => .ok (r, u)
        | none =>
            match findUserById r.userId users with
            | none => .error .internal
            | some u => .ok (r, u)

/-- The write phase of `refreshTokens`, committed atomically: save the found
row with `isActive := false`, generate the new pair, store the new row.
Returns the committed table, the next uuid counter and the token pair. -/
def refreshCommit (cfg : Config) (now : Nat) (r : RefreshRecord) (u : User)
    (db : List RefreshRecord) (nextId : Nat) :
    List RefreshRecord × Nat × (Tok × Tok) :=
  let db1 := saveRec { r with isActive := false } db
  let tokens := generateTokenPair cfg now u
  let (db2, nid) := storeRefreshToken now u.id tokens.2 db1 nextId
  (db2, nid, tokens)

/-- `refreshTokens(refreshToken)`: validation reads, then the two row writes
inside the same transaction; on any error the transaction is rolled back and
the state returned unchanged. -/
def refreshTokens (cfg : Config) (now : Nat) (t : Tok) (s : St) :
    Except AuthError AuthResponseDto × St :=
  match refreshValidate now t s.db s.cache s.users with
  | .error e => (.error e, s)
  | .ok (r, u) =>
      let (db2, nid, tokens) := refreshCommit cfg now r u s.db s.nextId
      (.ok { accessToken := tokens.1, refreshToken := tokens.2, user := summaryOf u },
       { s with db := db2, nextId := nid })

/-- `logout(accessToken, userId)`: decode the token; if `exp` leaves a
positive remaining lifetime `ttl = exp - floor(now/1000)` seconds, set
`blacklist:<accessToken> = true` with TTL `ttl * 1000` ms; then
`update(RefreshToken, { userId, isActive: true }, { isActive: false })`. -/
def logout (now : Nat) (accessToken : Tok) (userId : String) (s : St) : St :=
  let ttl := accessToken.exp - now / 1000
  let cache1 :=
    if 0 < ttl then
      cacheSet now (.blacklist accessToken) (.bool true) (ttl * 1000) s.cache
    else s.cache
  { s with cache := cache1,
           db := s.db.map (fun r =>
             if r.userId = userId ∧ r.isActive then { r with isActive := false } else r) }

/-- `revokeAllRefreshTokens(userId)`:
`update(RefreshToken, { userId }, { isActive: false })`. -/
def revokeAllRefreshTokens (userId : String) (s : St) : St :=
  { s with db := s.db.map (fun r =>
      if r.userId = userId then { r with isActive := false } else r) }

/-- `validateUser(userId)`: read `user:<userId>` from the cache; on a miss the
underlying fetch is commented out (`// user = await
this.usersService.findOneSecure(userId)`), so `user` stays `undefined`, the
`if (user)` populate branch cannot run, and `undefined` is returned. -/
def validateUser (now : Nat) (userId : String) (s : St) : Option User × St :=
  match cacheGet now (.userKey userId) s.cache with
  | some (.user u) => (some u, s)
  | _ =>
      let fetched : Option User := none
      match fetched with
      | some u =>
          (some u, { s with cache := cacheSet now (.userKey userId) (.user u) 300000 s.cache })
      | none => (none, s)

/-- `validateUserRoles(userId, requiredRoles)`. -/
def validateUserRoles (now : Nat) (userId : String) (requiredRoles : List String)
    (s : St) : Bool × St :=
  match validateUser now userId s with
  | (none, s1) => (false, s1)
  | (some u, s1) => (requiredRoles.contains u.role, s1)

/-- Two concurrent `refreshTokens(t)` request handlers interleaved under the
database default isolation (READ COMMITTED on the configured postgres): both
transactions run their validation reads before either commits, so both
`findOne` queries see the initially committed table; each then commits its
writes in turn.  The `save` of the found row is an unconditional UPDATE by
primary key and the new row an INSERT, so the second commit is not rejected.
Returns both outcomes and the final committed state. -/
def refreshTokensRace (cfg : Config) (now : Nat) (t : Tok) (s : St) :
    Except AuthError AuthResponseDto × Except AuthError AuthResponseDto × St :=
  match refreshValidate now t s.db s.cache s.users,
        refreshValidate now t s.db s.cache s.users with
  | .error e1, .error e2 => (.error e1, .error e2, s)
  | .error e1, .ok (r2, u2) =>
      let (db2, nid, tokens2) := refreshCommit cfg now r2 u2 s.db s.nextId
      (.error e1,
       .ok { accessToken := tokens2.1, refreshToken := tokens2.2, user := summaryOf u2 },
       { s with db := db2, nextId := nid })
  | .ok (r1, u1), .error e2 =>
      let (db1, nid, tokens1) := refreshCommit cfg now r1 u1 s.db s.nextId
      (.ok { accessToken := tokens1.1, refreshToken := tokens1.2, user := summaryOf u1 },
       .error e2,
       { s with db := db1, nextId := nid })
  | .ok (r1, u1), .ok (r2, u2) =>
      let (db1, nid1, tokens1) := refreshCommit cfg now r1 u1 s.db s.nextId
      let (db2, nid2, tokens2) := refreshCommit cfg now r2 u2 db1 nid1
      (.ok { accessToken := tokens1.1, refreshToken := tokens1.2, user := summaryOf u1 },
       .ok { accessToken := tokens2.1, refreshToken := tokens2.2, user := summaryOf u2 },
       { s with db := db2, nextId := nid2 })

/-! ### Cache lemmas -/

theorem cacheGet_del_self (q : Nat) (k : CKey) (c : Cache) :
    cacheGet q k (cacheDel k c) = none := by
  induction c with
  | nil => rfl
  | cons e rest ih =>
      obtain ⟨k1, v, ex⟩ := e
      by_cases hk : k1 = k
      · simpa [cacheDel, List.filter_cons, hk] using ih
      · simpa [cacheDel, List.filter_cons, hk, cacheGet] using ih

theorem cacheGet_del_ne (q : Nat) (k1 k : CKey) (c : Cache) (h : ¬ k1 = k) :
    cacheGet q k1 (cacheDel k c) = cacheGet q k1 c := by
  induction c with
  | nil => rfl
  | cons e rest ih =>
      obtain ⟨k2, v, ex⟩ := e
      by_cases hk : k2 = k
      · subst hk
        have hne : ¬ k2 = k1 := fun hh => h hh.symm
        simpa [cacheDel, List.filter_cons, cacheGet, hne] using ih
      · by_cases hk2 : k2 = k1
        · simp [cacheDel, List.filter_cons, hk, cacheGet, hk2, h]
        · simpa [cacheDel, List.filter_cons, hk, cacheGet, hk2] using ih

theorem cacheGet_set_self (q now : Nat) (k : CKey) (v : CacheVal) (ttl : Nat) (c : Cache) :
    cacheGet q k (cacheSet now k v ttl c) = if q < now + ttl then some v else none := by
  simp [cacheSet, cacheGet]

theorem cacheGet_set_ne (q now : Nat) (k1 k : CKey) (v : CacheVal) (ttl : Nat) (c : Cache)
    (h : ¬ k1 = k) :
    cacheGet q k1 (cacheSet now k v ttl c) = cacheGet q k1 c := by
  have hne : ¬ k = k1 := fun hh => h hh.symm
  show cacheGet q k1 ((k, v, now + ttl) :: cacheDel k c) = cacheGet q k1 c
  simp [cacheGet, hne, cacheGet_del_ne q k1 k c h]

/-- Five consecutive `recordFailedAttempt` calls for the same identity (the
cache effect of five consecutive failed logins), all inside one lockout
window. -/
def fiveFailures (now : Nat) (e : String) (c : Cache) : Cache :=
  recordFailedAttempt now e (recordFailedAttempt now e (recordFailedAttempt now e
    (recordFailedAttempt now e (recordFailedAttempt now e c))))

/-! ### Helper lemmas about recordFailedAttempt and login -/

theorem recordFailedAttempt_start (now : Nat) (e : String) (c : Cache)
    (h : cacheGet now (CKey.attempts e) c = none) :
    recordFailedAttempt now e c =
      cacheSet now (CKey.attempts e) (CacheVal.nat 1) LOCKOUT_DURATION c := by
  simp [recordFailedAttempt, h, MAX_LOGIN_ATTEMPTS]

theorem recordFailedAttempt_step (now : Nat) (e : String) (c : Cache) (n : Nat)
    (h : cacheGet now (CKey.attempts e) c = some (CacheVal.nat n))
    (hlt : n + 1 < MAX_LOGIN_ATTEMPTS) :
    recordFailedAttempt now e c =
      cacheSet now (CKey.attempts e) (CacheVal.nat (n + 1)) LOCKOUT_DURATION c := by
  have hle : ¬ MAX_LOGIN_ATTEMPTS ≤ n + 1 := Nat.not_le.mpr hlt
  simp [recordFailedAttempt, h, hle]

theorem recordFailedAttempt_trip (now : Nat) (e : String) (c : Cache) (n : Nat)
    (h : cacheGet now (CKey.attempts e) c = some (CacheVal.nat n))
    (hge : MAX_LOGIN_ATTEMPTS ≤ n + 1) :
    recordFailedAttempt now e c =
      cacheDel (CKey.attempts e)
        (cacheSet now (CKey.lockout e) (CacheVal.bool true) LOCKOUT_DURATION c) := by
  simp [recordFailedAttempt, h, hge]

/-! ### Helper lemmas about refreshTokens -/

theorem findActiveByToken_none (t : Tok) (db : List RefreshRecord)
    (h : ∀ x ∈ db, x.token = t → x.isActive = false) :
    findActiveByToken t db = none := by
  unfold findActiveByToken
  refine List.find?_eq_none.mpr ?_
  intro x hx hpred
  simp only [Bool.and_eq_true, decide_eq_true_eq] at hpred
  exact absurd hpred.2 (by simp [h x hx hpred.1])

theorem refreshTokens_error_of_no_active (cfg : Config) (now : Nat) (t : Tok) (s : St)
    (h : findActiveByToken t s.db = none) :
    refreshTokens cfg now t s = (.error (.unauthorized "Invalid refresh token"), s) := by
  simp [refreshTokens, refreshValidate, h]

/-! ### Sample data for concrete witnesses -/

/-- A sample user row; its stored hash matches password "pw". -/
def sampleUser : User :=
  { id := "u1", email := "a@b.c", name := "A", role := "user",
    password := bcryptHash "pw", tokenVersion := 0 }

/-- A sample configuration with the default expirations (15m, 7d). -/
def sampleCfg : Config :=
  { accessExpirationS := 900, refreshExpirationS := 604800 }

/-- A sample configuration whose refresh expiration is not 7 days. -/
def sampleCfgHour : Config :=
  { accessExpirationS := 900, refreshExpirationS := 3600 }

/-- A sample refresh token for `sampleUser`, minted at 1000 ms. -/
def sampleTok : Tok := Tok.refresh "u1" 1000 604801

/-- The stored row for `sampleTok`: active, unexpired until 604801000 ms. -/
def sampleRec : RefreshRecord :=
  { id := 0, token := sampleTok, userId := "u1", expiresAt := 604801000,
    isActive := true, createdAt := 1000 }

/-- A sample state: one active refresh row, empty cache, one user. -/
def sampleSt : St :=
  { db := [sampleRec], cache := [], users := [sampleUser], nextId := 1 }

/-! ### Claim theorems -/

/-- C9: `validateUser(userId)` never writes to the cache — the populate branch
is dead because the underlying fetch (`usersService.findOneSecure`) is
commented out — and whenever `user:<userId>` is absent it returns `undefined`,
in which case `validateUserRoles(userId, roles)` returns `false` for every
role list. -/
theorem validateUser_pure_read (now : Nat) (userId : String) (roles : List String)
    (s s' : St) (h : cacheGet now (CKey.userKey userId) s.cache = none) :
    (validateUser now userId s').2 = s' ∧
    (validateUser now userId s).1 = none ∧
    (validateUserRoles now userId roles s).1 = false ∧
    (validateUserRoles now userId roles s).2 = s := by
  have hpure : ∀ t : St, (validateUser now userId t).2 = t := by
    intro t
    unfold validateUser
    split <;> rfl
  have hmiss : (validateUser now userId s).1 = none := by
    unfold validateUser
    rw [h]
  have hv : validateUser now userId s = (none, s) := by
    rw [Prod.ext_iff]
    exact ⟨hmiss, hpure s⟩
  have hroles : validateUserRoles now userId roles s = (false, s) := by
    unfold validateUserRoles
    rw [hv]
  exact ⟨hpure s', hmiss, by rw [hroles], by rw [hroles]⟩

/-- Witness for C9 at a concrete state (empty cache). -/
theorem validateUser_pure_read_witness :
    (validateUser 5 "u1" sampleSt).2 = sampleSt ∧
    (validateUser 5 "u1" sampleSt).1 = none ∧
    (validateUserRoles 5 "u1" ["admin"] sampleSt).1 = false ∧
    (validateUserRoles 5 "u1" ["admin"] sampleSt).2 = sampleSt :=
  validateUser_pure_read 5 "u1" ["admin"] sampleSt sampleSt (by decide)

/-- C10: every refresh row persisted by `storeRefreshToken` (the single
persist path used by login, register and refreshTokens) is created with
`isActive = true` and `expiresAt` exactly `now + 7*24*60*60*1000` ms — a
hard-coded constant — while the signed refresh token's `exp` is
`now/1000 + JWT_REFRESH_EXPIRATION`; when that configuration is not 7 days
(604800 s) the stored expiry diverges from the signed expiry. -/
theorem storeRefreshToken_hardcoded_seven_days (cfg : Config) (now : Nat)
    (userId : String) (tok : Tok) (db : List RefreshRecord) (nid : Nat) (user : User)
    (h : ¬ cfg.refreshExpirationS = 604800) :
    (storeRefreshToken now userId tok db nid).1 =
      { id := nid, token := tok, userId := userId,
        expiresAt := now + 7 * 24 * 60 * 60 * 1000,
        isActive := true, createdAt := now } :: db ∧
    ((generateTokenPair cfg now user).2).exp = now / 1000 + cfg.refreshExpirationS ∧
    ¬ ((now + 7 * 24 * 60 * 60 * 1000) / 1000 = ((generateTokenPair cfg now user).2).exp) := by
  refine ⟨rfl, rfl, ?_⟩
  intro heq
  simp only [generateTokenPair, Tok.exp] at heq
  omega

/-- Witness for C10 with a 1-hour configured refresh expiration. -/
theorem storeRefreshToken_hardcoded_seven_days_witness :
    (storeRefreshToken 5000 "u1" sampleTok [] 0).1 =
      { id := 0, token := sampleTok, userId := "u1",
        expiresAt := 5000 + 7 * 24 * 60 * 60 * 1000,
        isActive := true, createdAt := 5000 } :: [] ∧
    ((generateTokenPair sampleCfgHour 5000 sampleUser).2).exp =
      5000 / 1000 + sampleCfgHour.refreshExpirationS ∧
    ¬ ((5000 + 7 * 24 * 60 * 60 * 1000) / 1000 =
        ((generateTokenPair sampleCfgHour 5000 sampleUser).2).exp) :=
  storeRefreshToken_hardcoded_seven_days sampleCfgHour 5000 "u1" sampleTok [] 0 sampleUser
    (by decide)

/-- C4: starting with no attempt counter for identity `e`, five consecutive
recorded failures set the `lockout:<e>` flag for `LOCKOUT_DURATION`
(15 minutes) and clear the `attempts:<e>` counter; while the flag is present
every `login(e, p)` — for every password `p`, users table and state, hence
also with the correct password — fails with the AccountLocked
`UnauthorizedException` before any credential check and leaves the state
unchanged; once the duration has elapsed the flag reads as absent. -/
theorem lockout_after_five_failures (now q q2 : Nat) (e : String) (c : Cache)
    (h0 : cacheGet now (CKey.attempts e) c = none)
    (hq : q < now + LOCKOUT_DURATION)
    (hq2 : now + LOCKOUT_DURATION ≤ q2) :
    cacheGet q (CKey.lockout e) (fiveFailures now e c) = some (CacheVal.bool true) ∧
    cacheGet q (CKey.attempts e) (fiveFailures now e c) = none ∧
    cacheGet q2 (CKey.lockout e) (fiveFailures now e c) = none ∧
    (∀ cfg p db users nid,
      login cfg q e p { db := db, cache := fiveFailures now e c, users := users, nextId := nid } =
        (.error (.unauthorized "Account temporarily locked due to too many failed attempts"),
         { db := db, cache := fiveFailures now e c, users := users, nextId := nid })) := by
  have hLD : (0 : Nat) < LOCKOUT_DURATION := by decide
  have hnow : now < now + LOCKOUT_DURATION := Nat.lt_add_of_pos_right hLD
  have hne_la : ¬ (CKey.lockout e) = (CKey.attempts e) := by simp
  have e1 : recordFailedAttempt now e c =
      cacheSet now (CKey.attempts e) (CacheVal.nat 1) LOCKOUT_DURATION c :=
    recordFailedAttempt_start now e c h0
  have g1 : cacheGet now (CKey.attempts e) (recordFailedAttempt now e c) =
      some (CacheVal.nat 1) := by
    rw [e1, cacheGet_set_self, if_pos hnow]
  have e2 : recordFailedAttempt now e (recordFailedAttempt now e c) =
      cacheSet now (CKey.attempts e) (CacheVal.nat 2) LOCKOUT_DURATION
        (recordFailedAttempt now e c) :=
    recordFailedAttempt_step now e _ 1 g1 (by decide)
  have g2 : cacheGet now (CKey.attempts e)
      (recordFailedAttempt now e (recordFailedAttempt now e c)) = some (CacheVal.nat 2) := by
    rw [e2, cacheGet_set_self, if_pos hnow]
  have e3 : recordFailedAttempt now e (recordFailedAttempt now e (recordFailedAttempt now e c)) =
      cacheSet now (CKey.attempts e) (CacheVal.nat 3) LOCKOUT_DURATION
        (recordFailedAttempt now e (recordFailedAttempt now e c)) :=
    recordFailedAttempt_step now e _ 2 g2 (by decide)
  have g3 : cacheGet now (CKey.attempts e)
      (recordFailedAttempt now e (recordFailedAttempt now e (recordFailedAttempt now e c))) =
      some (CacheVal.nat 3) := by
    rw [e3, cacheGet_set_self, if_pos hnow]
  have e4 : recordFailedAttempt now e (recordFailedAttempt now e (recordFailedAttempt now e
      (recordFailedAttempt now e c))) =
      cacheSet now (CKey.attempts e) (CacheVal.nat 4) LOCKOUT_DURATION
        (recordFailedAttempt now e (recordFailedAttempt now e (recordFailedAttempt now e c))) :=
    recordFailedAttempt_step now e _ 3 g3 (by decide)
  have g4 : cacheGet now (CKey.attempts e)
      (recordFailedAttempt now e (recordFailedAttempt now e (recordFailedAttempt now e
        (recordFailedAttempt now e c)))) = some (CacheVal.nat 4) := by
    rw [e4, cacheGet_set_self, if_pos hnow]
  have e5 : fiveFailures now e c =
      cacheDel (CKey.attempts e)
        (cacheSet now (CKey.lockout e) (CacheVal.bool true) LOCKOUT_DURATION
          (recordFailedAttempt now e (recordFailedAttempt now e (recordFailedAttempt now e
            (recordFailedAttempt now e c))))) := by
    unfold fiveFailures
    exact recordFailedAttempt_trip now e _ 4 g4 (by decide)
  have hlq : cacheGet q (CKey.lockout e) (fiveFailures now e c) = some (CacheVal.bool true) := by
    rw [e5, cacheGet_del_ne _ _ _ _ hne_la, cacheGet_set_self, if_pos hq]
  have haq : cacheGet q (CKey.attempts e) (fiveFailures now e c) = none := by
    rw [e5, cacheGet_del_self]
  have hlq2 : cacheGet q2 (CKey.lockout e) (fiveFailures now e c) = none := by
    rw [e5, cacheGet_del_ne _ _ _ _ hne_la, cacheGet_set_self, if_neg (Nat.not_lt.mpr hq2)]
  refine ⟨hlq, haq, hlq2, ?_⟩
  intro cfg p db users nid
  have hchk : checkUserLockout q e (fiveFailures now e c) =
      .error (.unauthorized "Account temporarily locked due to too many failed attempts") := by
    simp [checkUserLockout, hlq, CacheVal.truthy]
  simp [login, hchk]

/-- Witness for C4: five failures for "x@y.z" starting from an empty cache at
time 0; queried at 1 ms (locked) and at 900000 ms (flag expired). -/
theorem lockout_after_five_failures_witness :
    cacheGet 1 (CKey.lockout "x@y.z") (fiveFailures 0 "x@y.z" []) =
      some (CacheVal.bool true) ∧
    cacheGet 1 (CKey.attempts "x@y.z") (fiveFailures 0 "x@y.z" []) = none ∧
    cacheGet 900000 (CKey.lockout "x@y.z") (fiveFailures 0 "x@y.z" []) = none ∧
    (∀ cfg p db users nid,
      login cfg 1 "x@y.z" p
          { db := db, cache := fiveFailures 0 "x@y.z" [], users := users, nextId := nid } =
        (.error (.unauthorized "Account temporarily locked due to too many failed attempts"),
         { db := db, cache := fiveFailures 0 "x@y.z" [], users := users, nextId := nid })) :=
  lockout_after_five_failures 0 1 900000 "x@y.z" [] (by decide) (by decide) (by decide)

/-- C8: on every successful login for identity `e` the only cache effect is
`clearFailedAttempts`, which deletes exactly the `attempts:<e>` counter:
afterwards `attempts:<e>` reads as absent and every other key — in particular
the `lockout:<e>` flag — reads exactly as before, so a flag, once set, runs
its full duration regardless of later successes. -/
theorem login_success_clears_only_attempts (cfg : Config) (now q : Nat) (e p : String)
    (u : User) (s : St) (k : CKey)
    (hno : cacheGet now (CKey.lockout e) s.cache = none)
    (huser : findByEmail e s.users = some u)
    (hpw : verifyPassword p u.password = true)
    (hk : ¬ k = CKey.attempts e) :
    (login cfg now e p s).1 =
      .ok { accessToken := (generateTokenPair cfg now u).1,
            refreshToken := (generateTokenPair cfg now u).2,
            user := summaryOf u } ∧
    cacheGet q (CKey.attempts e) (login cfg now e p s).2.cache = none ∧
    cacheGet q k (login cfg now e p s).2.cache = cacheGet q k s.cache := by
  have hchk : checkUserLockout now e s.cache = .ok () := by
    simp [checkUserLockout, hno]
  refine ⟨?_, ?_, ?_⟩
  · simp [login, hchk, huser, hpw]
  · simp [login, hchk, huser, hpw, clearFailedAttempts, cacheGet_del_self]
  · simp [login, hchk, huser, hpw, clearFailedAttempts,
      cacheGet_del_ne q k (CKey.attempts e) s.cache hk]

/-- Witness for C8: successful login of `sampleUser` with an attempts counter
and a foreign key in the cache; the counter is gone, the foreign key reads as
before. -/
theorem login_success_clears_only_attempts_witness :
    (login sampleCfg 2000 "a@b.c" "pw"
        { db := [], cache := [(CKey.attempts "a@b.c", CacheVal.nat 3, 500000),
                              (CKey.lockout "other", CacheVal.bool true, 500000)],
          users := [sampleUser], nextId := 0 }).1 =
      .ok { accessToken := (generateTokenPair sampleCfg 2000 sampleUser).1,
            refreshToken := (generateTokenPair sampleCfg 2000 sampleUser).2,
            user := summaryOf sampleUser } ∧
    cacheGet 2500 (CKey.attempts "a@b.c")
      (login sampleCfg 2000 "a@b.c" "pw"
        { db := [], cache := [(CKey.attempts "a@b.c", CacheVal.nat 3, 500000),
                              (CKey.lockout "other", CacheVal.bool true, 500000)],
          users := [sampleUser], nextId := 0 }).2.cache = none ∧
    cacheGet 2500 (CKey.lockout "other")
      (login sampleCfg 2000 "a@b.c" "pw"
        { db := [], cache := [(CKey.attempts "a@b.c", CacheVal.nat 3, 500000),
                              (CKey.lockout "other", CacheVal.bool true, 500000)],
          users := [sampleUser], nextId := 0 }).2.cache =
      cacheGet 2500 (CKey.lockout "other")
        [(CKey.attempts "a@b.c", CacheVal.nat 3, 500000),
         (CKey.lockout "other", CacheVal.bool true, 500000)] :=
  login_success_clears_only_attempts sampleCfg 2000 2500 "a@b.c" "pw" sampleUser
    { db := [], cache := [(CKey.attempts "a@b.c", CacheVal.nat 3, 500000),
                          (CKey.lockout "other", CacheVal.bool true, 500000)],
      users := [sampleUser], nextId := 0 }
    (CKey.lockout "other") (by decide) (by decide) (by decide) (by decide)

/-- C6: a login with a non-existent email and a login with an existing email
but wrong password fail with the identical
`UnauthorizedException('Invalid credentials')` — same kind, same message —
and in both cases the only state change is one recorded failed attempt for
the presented identity. -/
theorem login_invalid_credentials_identical (cfg : Config) (now : Nat) (e p : String)
    (s1 s2 : St) (u : User)
    (hno1 : cacheGet now (CKey.lockout e) s1.cache = none)
    (hno2 : cacheGet now (CKey.lockout e) s2.cache = none)
    (habs : findByEmail e s1.users = none)
    (hex : findByEmail e s2.users = some u)
    (hbad : verifyPassword p u.password = false) :
    (login cfg now e p s1).1 = .error (.unauthorized "Invalid credentials") ∧
    (login cfg now e p s2).1 = .error (.unauthorized "Invalid credentials") ∧
    (login cfg now e p s1).2 = { s1 with cache := recordFailedAttempt now e s1.cache } ∧
    (login cfg now e p s2).2 = { s2 with cache := recordFailedAttempt now e s2.cache } := by
  have hchk1 : checkUserLockout now e s1.cache = .ok () := by
    simp [checkUserLockout, hno1]
  have hchk2 : checkUserLockout now e s2.cache = .ok () := by
    simp [checkUserLockout, hno2]
  refine ⟨?_, ?_, ?_, ?_⟩
  · simp [login, hchk1, habs]
  · simp [login, hchk2, hex, hbad]
  · simp [login, hchk1, habs]
  · simp [login, hchk2, hex, hbad]

/-- Witness for C6: "ghost@b.c" does not exist; `sampleUser` exists but the
password is wrong; both logins fail identically and record one attempt. -/
theorem login_invalid_credentials_identical_witness :
    (login sampleCfg 2000 "a@b.c" "wrong"
        { db := [], cache := [], users := [], nextId := 0 }).1 =
      .error (.unauthorized "Invalid credentials") ∧
    (login sampleCfg 2000 "a@b.c" "wrong" sampleSt).1 =
      .error (.unauthorized "Invalid credentials") ∧
    (login sampleCfg 2000 "a@b.c" "wrong"
        { db := [], cache := [], users := [], nextId := 0 }).2 =
      { db := [], cache := recordFailedAttempt 2000 "a@b.c" [], users := [], nextId := 0 } ∧
    (login sampleCfg 2000 "a@b.c" "wrong" sampleSt).2 =
      { sampleSt with cache := recordFailedAttempt 2000 "a@b.c" sampleSt.cache } :=
  login_invalid_credentials_identical sampleCfg 2000 "a@b.c" "wrong"
    { db := [], cache := [], users := [], nextId := 0 } sampleSt sampleUser
    (by decide) (by decide) (by decide) (by decide) (by decide)

/-- `sampleSt` with `sampleTok` blacklisted in the cache. -/
def blackSt : St :=
  { db := [sampleRec],
    cache := [(CKey.blacklist sampleTok, CacheVal.bool true, 999999999)],
    users := [sampleUser], nextId := 1 }

/-- Counterexample to C5 as stated: two failing `refreshTokens` calls — one
with the record missing, one with the token blacklisted — produce different
errors (`'Invalid refresh token'` vs `'Token has been revoked'`), so the
failing error is not identical across the four causes. -/
theorem refresh_errors_not_identical_cex :
    (refreshTokens sampleCfg 2000 sampleTok blackSt).1 =
      .error (.unauthorized "Token has been revoked") ∧
    (refreshTokens sampleCfg 2000 sampleTok
        { db := [], cache := [], users := [sampleUser], nextId := 0 }).1 =
      .error (.unauthorized "Invalid refresh token") ∧
    ¬ ((refreshTokens sampleCfg 2000 sampleTok blackSt).1 =
       (refreshTokens sampleCfg 2000 sampleTok
          { db := [], cache := [], users := [sampleUser], nextId := 0 }).1) := by
  decide

/-- C5 amended: every failing `refreshTokens` call throws the same exception
class (`UnauthorizedException`), and the missing-record, inactive-record
(both are the `findOne` miss) and expired-record causes share the identical
message `'Invalid refresh token'`; a blacklisted token, however, fails with
the distinct message `'Token has been revoked'`, so blacklisting is
distinguishable from the other causes. -/
theorem refresh_error_collapse_amended (cfg : Config) (now1 now2 now3 : Nat)
    (t1 t2 t3 : Tok) (s1 s2 s3 : St) (r2 r3 : RefreshRecord) (v3 : CacheVal)
    (h1 : findActiveByToken t1 s1.db = none)
    (h2 : findActiveByToken t2 s2.db = some r2)
    (hr2 : r2.expiresAt < now2)
    (h3 : findActiveByToken t3 s3.db = some r3)
    (hr3 : ¬ r3.expiresAt < now3)
    (hb3 : cacheGet now3 (CKey.blacklist t3) s3.cache = some v3)
    (hv3 : v3.truthy = true) :
    refreshTokens cfg now1 t1 s1 = (.error (.unauthorized "Invalid refresh token"), s1) ∧
    refreshTokens cfg now2 t2 s2 = (.error (.unauthorized "Invalid refresh token"), s2) ∧
    refreshTokens cfg now3 t3 s3 = (.error (.unauthorized "Token has been revoked"), s3) := by
  refine ⟨?_, ?_, ?_⟩
  · simp [refreshTokens, refreshValidate, h1]
  · simp [refreshTokens, refreshValidate, h2, hr2]
  · simp [refreshTokens, refreshValidate, h3, hr3, hb3, hv3]

/-- Witness for the amended C5: a missing record, an expired record and a
blacklisted token, each at a concrete state. -/
theorem refresh_error_collapse_amended_witness :
    refreshTokens sampleCfg 2000 sampleTok
        { db := [], cache := [], users := [sampleUser], nextId := 0 } =
      (.error (.unauthorized "Invalid refresh token"),
       { db := [], cache := [], users := [sampleUser], nextId := 0 }) ∧
    refreshTokens sampleCfg 999999999 sampleTok sampleSt =
      (.error (.unauthorized "Invalid refresh token"), sampleSt) ∧
    refreshTokens sampleCfg 2000 sampleTok blackSt =
      (.error (.unauthorized "Token has been revoked"), blackSt) :=
  refresh_error_collapse_amended sampleCfg 2000 999999999 2000
    sampleTok sampleTok sampleTok
    { db := [], cache := [], users := [sampleUser], nextId := 0 } sampleSt blackSt
    sampleRec sampleRec (CacheVal.bool true)
    (by decide) (by decide) (by decide) (by decide) (by decide) (by decide) (by decide)

/-- C1: sequential single-use rotation.  If the record for token `t` is the
unique row carrying `t`, is active, unexpired and not blacklisted, and its
user exists, then `refreshTokens(t)` succeeds, and a second `refreshTokens(t)`
on the resulting state fails with `UnauthorizedException('Invalid refresh
token')`: the first call flipped the row to inactive.  (`hfresh` states that
the replacement token differs from `t`, which holds whenever the replacement
is signed at a different instant.) -/
theorem refresh_single_use (cfg : Config) (now1 now2 : Nat) (t : Tok) (s : St)
    (r : RefreshRecord) (u : User)
    (hfind : findActiveByToken t s.db = some r)
    (hexp : ¬ r.expiresAt < now1)
    (hbl : cacheGet now1 (CKey.blacklist t) s.cache = none)
    (huser : findUserById r.userId s.users = some u)
    (huniq : ∀ x ∈ s.db, x.token = t → x = r)
    (hfresh : ¬ (generateTokenPair cfg now1 u).2 = t) :
    (refreshTokens cfg now1 t s).1 =
      .ok { accessToken := (generateTokenPair cfg now1 u).1,
            refreshToken := (generateTokenPair cfg now1 u).2,
            user := summaryOf u } ∧
    refreshTokens cfg now2 t (refreshTokens cfg now1 t s).2 =
      (.error (.unauthorized "Invalid refresh token"), (refreshTokens cfg now1 t s).2) := by
  have hval : refreshValidate now1 t s.db s.cache s.users = .ok (r, u) := by
    simp [refreshValidate, hfind, hexp, hbl, huser]
  have hfst : refreshTokens cfg now1 t s =
      (.ok { accessToken := (generateTokenPair cfg now1 u).1,
             refreshToken := (generateTokenPair cfg now1 u).2,
             user := summaryOf u },
       { s with db := ({ id := s.nextId, token := (generateTokenPair cfg now1 u).2,
                         userId := u.id, expiresAt := now1 + 7 * 24 * 60 * 60 * 1000,
                         isActive := true, createdAt := now1 } : RefreshRecord) ::
                       saveRec ({ r with isActive := false }) s.db,
                nextId := s.nextId + 1 }) := by
    simp [refreshTokens, hval, refreshCommit, storeRefreshToken]
  have hnone : findActiveByToken t ((refreshTokens cfg now1 t s).2).db = none := by
    rw [hfst]
    apply findActiveByToken_none
    intro x hx hxt
    rcases List.mem_cons.mp hx with hxnew | hxold
    · exfalso
      rw [hxnew] at hxt
      exact hfresh hxt
    · simp only [saveRec, List.mem_map] at hxold
      obtain ⟨y, hy, hxy⟩ := hxold
      by_cases hid : y.id = r.id
      · have hxr : x = { r with isActive := false } := by
          rw [← hxy]
          simp [hid]
        rw [hxr]
      · have hxey : x = y := by
          rw [← hxy]
          simp [hid]
        rw [hxey] at hxt
        have hyr := huniq y hy hxt
        exact absurd (show y.id = r.id by rw [hyr]) hid
  exact ⟨by rw [hfst], refreshTokens_error_of_no_active cfg now2 t _ hnone⟩

/-- Witness for C1 at `sampleSt`: rotation at 2000 ms succeeds; presenting
`sampleTok` again at 3000 ms fails. -/
theorem refresh_single_use_witness :
    (refreshTokens sampleCfg 2000 sampleTok sampleSt).1 =
      .ok { accessToken := (generateTokenPair sampleCfg 2000 sampleUser).1,
            refreshToken := (generateTokenPair sampleCfg 2000 sampleUser).2,
            user := summaryOf sampleUser } ∧
    refreshTokens sampleCfg 3000 sampleTok (refreshTokens sampleCfg 2000 sampleTok sampleSt).2 =
      (.error (.unauthorized "Invalid refresh token"),
       (refreshTokens sampleCfg 2000 sampleTok sampleSt).2) :=
  refresh_single_use sampleCfg 2000 3000 sampleTok sampleSt sampleRec sampleUser
    (by decide) (by decide) (by decide) (by decide) (by decide) (by decide)

theorem refreshValidate_ok_inv (now : Nat) (t : Tok) (db : List RefreshRecord)
    (cache : Cache) (users : List User) (r : RefreshRecord) (u : User)
    (h : refreshValidate now t db cache users = .ok (r, u)) :
    findActiveByToken t db = some r ∧ findUserById r.userId users = some u := by
  cases hf : findActiveByToken t db with
  | none => simp [refreshValidate, hf] at h
  | some r0 =>
      by_cases hx : r0.expiresAt < now
      · simp [refreshValidate, hf, hx] at h
      · cases hb : cacheGet now (CKey.blacklist t) cache with
        | none =>
            cases hu : findUserById r0.userId users with
            | none => simp [refreshValidate, hf, hx, hb, hu] at h
            | some u0 =>
                have hru : r0 = r ∧ u0 = u := by
                  simpa [refreshValidate, hf, hx, hb, hu] using h
                obtain ⟨hr1, hu1⟩ := hru
                subst hr1
                subst hu1
                exact ⟨rfl, hu⟩
        | some v =>
            by_cases hv : v.truthy
            · simp [refreshValidate, hf, hx, hb, hv] at h
            · cases hu : findUserById r0.userId users with
              | none => simp [refreshValidate, hf, hx, hb, hv, hu] at h
              | some u0 =>
                  have hru : r0 = r ∧ u0 = u := by
                    simpa [refreshValidate, hf, hx, hb, hv, hu] using h
                  obtain ⟨hr1, hu1⟩ := hru
                  subst hr1
                  subst hu1
                  exact ⟨rfl, hu⟩

/-- C3: rotation is atomic.  On any failing `refreshTokens` call the
transaction is rolled back and the state is returned exactly as it was — no
partial write survives; on any succeeding call both writes are committed
together: the presented row reappears flipped to inactive and the replacement
active row is present, together with the success result. -/
theorem refreshTokens_atomic (cfg : Config) (now : Nat) (t : Tok) (s : St) :
    (∀ e, (refreshTokens cfg now t s).1 = .error e → (refreshTokens cfg now t s).2 = s) ∧
    (∀ r u, refreshValidate now t s.db s.cache s.users = .ok (r, u) →
      ({ r with isActive := false } : RefreshRecord) ∈ (refreshTokens cfg now t s).2.db ∧
      ({ id := s.nextId, token := (generateTokenPair cfg now u).2, userId := u.id,
         expiresAt := now + 7 * 24 * 60 * 60 * 1000, isActive := true,
         createdAt := now } : RefreshRecord) ∈ (refreshTokens cfg now t s).2.db ∧
      (refreshTokens cfg now t s).1 =
        .ok { accessToken := (generateTokenPair cfg now u).1,
              refreshToken := (generateTokenPair cfg now u).2,
              user := summaryOf u }) := by
  constructor
  · intro e he
    cases hval : refreshValidate now t s.db s.cache s.users with
    | error e2 => simp [refreshTokens, hval]
    | ok ru =>
        obtain ⟨r, u⟩ := ru
        simp [refreshTokens, hval] at he
  · intro r u hval
    obtain ⟨hf, _⟩ := refreshValidate_ok_inv now t s.db s.cache s.users r u hval
    have hmem : r ∈ s.db := List.mem_of_find?_eq_some hf
    have hdb : (refreshTokens cfg now t s).2.db =
        ({ id := s.nextId, token := (generateTokenPair cfg now u).2, userId := u.id,
           expiresAt := now + 7 * 24 * 60 * 60 * 1000, isActive := true,
           createdAt := now } : RefreshRecord) ::
          saveRec ({ r with isActive := false }) s.db := by
      simp [refreshTokens, hval, refreshCommit, storeRefreshToken]
    refine ⟨?_, ?_, ?_⟩
    · rw [hdb]
      refine List.mem_cons_of_mem _ ?_
      unfold saveRec
      refine List.mem_map.mpr ⟨r, hmem, ?_⟩
      simp
    · rw [hdb]
      exact List.mem_cons_self _ _
    · simp [refreshTokens, hval, refreshCommit, storeRefreshToken]

/-- Witness for C3: a failing call (empty table) leaves the state untouched;
a succeeding call at `sampleSt` commits both the deactivated old row and the
new active row. -/
theorem refreshTokens_atomic_witness :
    (refreshTokens sampleCfg 2000 sampleTok
        { db := [], cache := [], users := [sampleUser], nextId := 0 }).2 =
      { db := [], cache := [], users := [sampleUser], nextId := 0 } ∧
    ({ sampleRec with isActive := false } : RefreshRecord) ∈
      (refreshTokens sampleCfg 2000 sampleTok sampleSt).2.db ∧
    ({ id := sampleSt.nextId, token := (generateTokenPair sampleCfg 2000 sampleUser).2,
       userId := sampleUser.id, expiresAt := 2000 + 7 * 24 * 60 * 60 * 1000,
       isActive := true, createdAt := 2000 } : RefreshRecord) ∈
      (refreshTokens sampleCfg 2000 sampleTok sampleSt).2.db ∧
    (refreshTokens sampleCfg 2000 sampleTok sampleSt).1 =
      .ok { accessToken := (generateTokenPair sampleCfg 2000 sampleUser).1,
            refreshToken := (generateTokenPair sampleCfg 2000 sampleUser).2,
            user := summaryOf sampleUser } :=
  ⟨(refreshTokens_atomic sampleCfg 2000 sampleTok
      { db := [], cache := [], users := [sampleUser], nextId := 0 }).1
        (.unauthorized "Invalid refresh token") (by decide),
   (refreshTokens_atomic sampleCfg 2000 sampleTok sampleSt).2 sampleRec sampleUser (by decide)⟩

/-- C7: after `logout(accessToken, userId)` with remaining access-token
lifetime, the `blacklist:<accessToken>` entry reads `true` at every instant
before `now + (exp - now/1000)*1000` (the remaining lifetime, to JWT second
granularity) and is expired from then on; every refresh row of `userId` ends
inactive; and a subsequent `refreshTokens` presenting any token whose rows all
belong to `userId` fails with `UnauthorizedException('Invalid refresh
token')`. -/
theorem logout_postcondition (now q1 q2 now2 : Nat) (cfg : Config)
    (accessToken t : Tok) (userId : String) (s : St)
    (hexp : now / 1000 < accessToken.exp)
    (hq1 : q1 < now + (accessToken.exp - now / 1000) * 1000)
    (hq2 : now + (accessToken.exp - now / 1000) * 1000 ≤ q2)
    (htok : ∀ x ∈ s.db, x.token = t → x.userId = userId) :
    cacheGet q1 (CKey.blacklist accessToken) (logout now accessToken userId s).cache =
      some (CacheVal.bool true) ∧
    cacheGet q2 (CKey.blacklist accessToken) (logout now accessToken userId s).cache = none ∧
    (∀ x ∈ (logout now accessToken userId s).db, x.userId = userId → x.isActive = false) ∧
    refreshTokens cfg now2 t (logout now accessToken userId s) =
      (.error (.unauthorized "Invalid refresh token"), logout now accessToken userId s) := by
  have httl : 0 < accessToken.exp - now / 1000 := by omega
  have hcache : (logout now accessToken userId s).cache =
      cacheSet now (CKey.blacklist accessToken) (CacheVal.bool true)
        ((accessToken.exp - now / 1000) * 1000) s.cache := by
    simp [logout, httl]
  have hdbeq : (logout now accessToken userId s).db =
      s.db.map (fun r =>
        if r.userId = userId ∧ r.isActive then { r with isActive := false } else r) := by
    simp [logout]
  have hinact : ∀ x ∈ (logout now accessToken userId s).db,
      x.userId = userId → x.isActive = false := by
    intro x hx hxid
    rw [hdbeq] at hx
    obtain ⟨y, hy, hxy⟩ := List.mem_map.mp hx
    by_cases hc : y.userId = userId ∧ y.isActive
    · rw [← hxy]
      simp [hc]
    · have hxey : x = y := by rw [← hxy]; simp [hc]
      rw [hxey]
      rw [hxey] at hxid
      rcases Bool.eq_false_or_eq_true y.isActive with htr | hfa
      · exact absurd ⟨hxid, htr⟩ hc
      · exact hfa
  refine ⟨?_, ?_, hinact, ?_⟩
  · rw [hcache, cacheGet_set_self, if_pos hq1]
  · rw [hcache, cacheGet_set_self, if_neg (Nat.not_lt.mpr hq2)]
  · apply refreshTokens_error_of_no_active
    apply findActiveByToken_none
    intro x hx hxt
    have hxid : x.userId = userId := by
      rw [hdbeq] at hx
      obtain ⟨y, hy, hxy⟩ := List.mem_map.mp hx
      have hyt : y.token = t := by
        by_cases hc : y.userId = userId ∧ y.isActive
        · rw [← hxy] at hxt
          simpa [hc] using hxt
        · rw [← hxy] at hxt
          simpa [hc] using hxt
      have hyid := htok y hy hyt
      by_cases hc : y.userId = userId ∧ y.isActive
      · rw [← hxy]
        simp [hc, hyid]
      · have hia : ¬ y.isActive = true := fun hh => hc ⟨hyid, hh⟩
        rw [← hxy]
        simp [hyid, hia]
    exact hinact x hx hxid

/-- Witness for C7: logout of `sampleUser` at 2000 ms with an access token
expiring at second 901; blacklist present at 2500 ms, expired at 901000 ms;
the prior refresh token `sampleTok` then fails. -/
theorem logout_postcondition_witness :
    cacheGet 2500 (CKey.blacklist (Tok.access "u1" "a@b.c" "user" 0 1000 901))
      (logout 2000 (Tok.access "u1" "a@b.c" "user" 0 1000 901) "u1" sampleSt).cache =
      some (CacheVal.bool true) ∧
    cacheGet 901000 (CKey.blacklist (Tok.access "u1" "a@b.c" "user" 0 1000 901))
      (logout 2000 (Tok.access "u1" "a@b.c" "user" 0 1000 901) "u1" sampleSt).cache = none ∧
    (∀ x ∈ (logout 2000 (Tok.access "u1" "a@b.c" "user" 0 1000 901) "u1" sampleSt).db,
      x.userId = "u1" → x.isActive = false) ∧
    refreshTokens sampleCfg 3000 sampleTok
        (logout 2000 (Tok.access "u1" "a@b.c" "user" 0 1000 901) "u1" sampleSt) =
      (.error (.unauthorized "Invalid refresh token"),
       logout 2000 (Tok.access "u1" "a@b.c" "user" 0 1000 901) "u1" sampleSt) :=
  logout_postcondition 2000 2500 901000 3000 sampleCfg
    (Tok.access "u1" "a@b.c" "user" 0 1000 901) sampleTok "u1" sampleSt
    (by decide) (by decide) (by decide) (by decide)

/-- C2 at the failing input (code evaluation): two racing `refreshTokens`
calls presenting the same active, unexpired, non-blacklisted token — modelled
under the configured postgres default READ COMMITTED isolation, where both
`findOne` validation reads run before either commit and the row writes are an
unconditional UPDATE by primary key plus an INSERT — BOTH succeed, returning
identical fresh token pairs, and the final table holds two active replacement
rows; the claim that never both succeed is violated by the code, which takes
no row lock and no conditional (compare-and-flip) update. -/
theorem refreshTokensRace_both_succeed :
    (refreshTokensRace sampleCfg 2000 sampleTok sampleSt).1 =
      .ok { accessToken := (generateTokenPair sampleCfg 2000 sampleUser).1,
            refreshToken := (generateTokenPair sampleCfg 2000 sampleUser).2,
            user := summaryOf sampleUser } ∧
    (refreshTokensRace sampleCfg 2000 sampleTok sampleSt).2.1 =
      .ok { accessToken := (generateTokenPair sampleCfg 2000 sampleUser).1,
            refreshToken := (generateTokenPair sampleCfg 2000 sampleUser).2,
            user := summaryOf sampleUser } ∧
    ((refreshTokensRace sampleCfg 2000 sampleTok sampleSt).2.2.db.filter
        (fun r => r.isActive)).length = 2 := by
  decide
